import Mathlib

/-!
Verification development for the Lark/Feishu channel plugin
(client factory, account resolver, message normalizer, connection
manager, outbound sender).

The TypeScript sources are shallowly embedded: JSON payloads become an
inductive `Json` tree produced by an executable parser modelling
`JSON.parse`; dynamic property access models JavaScript semantics
(property access on `null` raises a TypeError, absent fields are
`undefined`, modelled as `none`); the module-level mutable caches and
connection slots become explicit state values threaded through the
functions; `process.env` becomes an explicit `Env` argument passed to
every function that could read it.
-/

/-! ## JSON values and a model of JSON.parse -/

/-- A JSON value as produced by JSON.parse.  Numbers keep their source
lexeme: no claim below inspects numeric values, only their presence and
the fact that they are not strings. -/
inductive Json where
  | null : Json
  | bool (b : Bool) : Json
  | num (lexeme : String) : Json
  | str (s : String) : Json
  | arr (elems : List Json) : Json
  | obj (entries : List (String × Json)) : Json

/-- JSON whitespace characters accepted between tokens by JSON.parse. -/
def isJsonWs (c : Char) : Bool :=
  c = ' ' || c = '\t' || c = '\n' || c = '\r'

/-- Drop leading JSON whitespace. -/
def skipWs : List Char → List Char
  | c :: cs => if isJsonWs c then skipWs cs else c :: cs
  | [] => []

/-- Value of one hexadecimal digit. -/
def hexDigitVal (c : Char) : Option Nat :=
  if '0' ≤ c ∧ c ≤ '9' then some (c.toNat - '0'.toNat)
  else if 'a' ≤ c ∧ c ≤ 'f' then some (c.toNat - 'a'.toNat + 10)
  else if 'A' ≤ c ∧ c ≤ 'F' then some (c.toNat - 'A'.toNat + 10)
  else none

/-- Combine four hex digits of a \uXXXX escape. -/
def hex4 (a b c d : Char) : Option Nat :=
  match hexDigitVal a, hexDigitVal b, hexDigitVal c, hexDigitVal d with
  | some x, some y, some z, some w => some (((x * 16 + y) * 16 + z) * 16 + w)
  | _, _, _, _ => none

/-- Parse the characters of a JSON string literal after the opening
quote; returns the decoded characters and the input after the closing
quote.  Control characters below 0x20 are rejected, escapes follow the
JSON grammar (lone-surrogate \u escapes are mapped through Char.ofNat,
a simplification that no claim depends on). -/
def parseStrChars : List Char → Option (List Char × List Char)
  | '"' :: rest => some ([], rest)
  | '\\' :: '"' :: r => (parseStrChars r).map fun (s, t) => ('"' :: s, t)
  | '\\' :: '\\' :: r => (parseStrChars r).map fun (s, t) => ('\\' :: s, t)
  | '\\' :: '/' :: r => (parseStrChars r).map fun (s, t) => ('/' :: s, t)
  | '\\' :: 'b' :: r => (parseStrChars r).map fun (s, t) => (Char.ofNat 8 :: s, t)
  | '\\' :: 'f' :: r => (parseStrChars r).map fun (s, t) => (Char.ofNat 12 :: s, t)
  | '\\' :: 'n' :: r => (parseStrChars r).map fun (s, t) => ('\n' :: s, t)
  | '\\' :: 'r' :: r => (parseStrChars r).map fun (s, t) => ('\r' :: s, t)
  | '\\' :: 't' :: r => (parseStrChars r).map fun (s, t) => ('\t' :: s, t)
  | '\\' :: 'u' :: a :: b :: c :: d :: r =>
    match hex4 a b c d with
    | some n => (parseStrChars r).map fun (s, t) => (Char.ofNat n :: s, t)
    | none => none
  | '\\' :: _ => none
  | c :: rest =>
    if c.toNat < 32 then none
    else (parseStrChars rest).map fun (s, t) => (c :: s, t)
  | [] => none

/-- Longest prefix of decimal digits. -/
def takeDigits : List Char → List Char × List Char
  | c :: cs =>
    if c.isDigit then
      let (d, r) := takeDigits cs
      (c :: d, r)
    else ([], c :: cs)
  | [] => ([], [])

/-- Parse a JSON number; returns its lexeme and the rest of the input.
Grammar: -?(0|[1-9][0-9]*)(.[0-9]+)?([eE][+-]?[0-9]+)? . -/
def parseNumLexeme (cs : List Char) : Option (List Char × List Char) :=
  let (sgn, cs1) :=
    match cs with
    | '-' :: r => (['-'], r)
    | _ => (([] : List Char), cs)
  let intPart : Option (List Char × List Char) :=
    match cs1 with
    | '0' :: r => some (['0'], r)
    | c :: r => if c.isDigit then some (takeDigits (c :: r)) else none
    | [] => none
  match intPart with
  | none => none
  | some (ipart, cs2) =>
    let fracPart : Option (List Char × List Char) :=
      match cs2 with
      | '.' :: r =>
        let (ds, rest) := takeDigits r
        if ds.isEmpty then none else some ('.' :: ds, rest)
      | _ => some ([], cs2)
    match fracPart with
    | none => none
    | some (fpart, cs3) =>
      let expPart : Option (List Char × List Char) :=
        match cs3 with
        | c :: r =>
          if c = 'e' ∨ c = 'E' then
            let (esgn, r2) :=
              match r with
              | '+' :: rr => (['+'], rr)
              | '-' :: rr => (['-'], rr)
              | _ => (([] : List Char), r)
            let (ds, rest) := takeDigits r2
            if ds.isEmpty then none else some (c :: (esgn ++ ds), rest)
          else some ([], cs3)
        | [] => some ([], cs3)
      match expPart with
      | none => none
      | some (epart, cs4) => some (sgn ++ ipart ++ fpart ++ epart, cs4)

/-- Insert a key/value pair into an object being built, overwriting an
earlier occurrence of the same key in place: JSON.parse keeps the last
value for a duplicate key at the position of its first occurrence. -/
def insertKV (kvs : List (String × Json)) (k : String) (v : Json) :
    List (String × Json) :=
  match kvs with
  | [] => [(k, v)]
  | (k', v') :: rest =>
    if k' = k then (k', v) :: rest else (k', v') :: insertKV rest k v

/-- Element loop of a JSON array (after the first element is known to
start), parameterised by the value parser for the current nesting level. -/
def parseElemsWith (pv : List Char → Option (Json × List Char)) :
    Nat → List Char → Option (List Json × List Char)
  | 0, _ => none
  | fuel + 1, cs =>
    match pv cs with
    | none => none
    | some (v, rest) =>
      match skipWs rest with
      | ',' :: r2 =>
        (parseElemsWith pv fuel r2).map fun (xs, rest2) => (v :: xs, rest2)
      | ']' :: r2 => some ([v], r2)
      | _ => none

/-- Member loop of a JSON object (after the first member is known to
start), parameterised by the value parser for the current nesting level.
Returns the members in source order, duplicates included. -/
def parseMembersWith (pv : List Char → Option (Json × List Char)) :
    Nat → List Char → Option (List (String × Json) × List Char)
  | 0, _ => none
  | fuel + 1, cs =>
    match skipWs cs with
    | '"' :: r =>
      match parseStrChars r with
      | none => none
      | some (kchars, r2) =>
        match skipWs r2 with
        | ':' :: r3 =>
          match pv r3 with
          | none => none
          | some (v, r4) =>
            match skipWs r4 with
            | ',' :: r5 =>
              (parseMembersWith pv fuel r5).map fun (kvs, rest) =>
                ((String.mk kchars, v) :: kvs, rest)
            | '}' :: r5 => some ([(String.mk kchars, v)], r5)
            | _ => none
        | _ => none
    | _ => none

/-- Fuel-indexed JSON value parser; the fuel strictly exceeds the
nesting depth of any value it is asked to parse (`jsonFuel` below is
generous enough for every input). -/
def parseVal : Nat → List Char → Option (Json × List Char)
  | 0, _ => none
  | fuel + 1, cs =>
    match skipWs cs with
    | 'n' :: 'u' :: 'l' :: 'l' :: r => some (.null, r)
    | 't' :: 'r' :: 'u' :: 'e' :: r => some (.bool true, r)
    | 'f' :: 'a' :: 'l' :: 's' :: 'e' :: r => some (.bool false, r)
    | '"' :: r => (parseStrChars r).map fun (s, rest) => (.str (String.mk s), rest)
    | '[' :: r =>
      match skipWs r with
      | ']' :: rest => some (.arr [], rest)
      | cs2 =>
        (parseElemsWith (parseVal fuel) fuel cs2).map fun (xs, rest) =>
          (.arr xs, rest)
    | '{' :: r =>
      match skipWs r with
      | '}' :: rest => some (.obj [], rest)
      | cs2 =>
        (parseMembersWith (parseVal fuel) fuel cs2).map fun (kvs, rest) =>
          (.obj (kvs.foldl (fun acc kv => insertKV acc kv.1 kv.2) []), rest)
    | cs2 => (parseNumLexeme cs2).map fun (lex, rest) => (.num (String.mk lex), rest)

/-- Fuel bound used for a given input: at most two units of fuel are
spent per input character, so this never exhausts on any input. -/
def jsonFuel (s : String) : Nat := 2 * s.length + 4

/-- Model of JSON.parse: parse one value and require only trailing
whitespace; any violation of the grammar is a parse failure (the
SyntaxError path of JSON.parse). -/
def parseJson (s : String) : Option Json :=
  match parseVal (jsonFuel s) s.data with
  | some (v, rest) => if (skipWs rest).isEmpty then some v else none
  | none => none

/-! ## JavaScript dynamic-access helpers -/

/-- Errors a JavaScript expression can raise: a TypeError from a
property access or method call on an unsuitable value, or a SyntaxError
from JSON.parse. -/
inductive JsErr where
  | typeErr : JsErr
  | badJson : JsErr
deriving DecidableEq

/-- First-match lookup in an association list.  `parseJson` builds
objects with unique keys (`insertKV`), so this is also the last-match
lookup JavaScript property semantics prescribe. -/
def lookupKV {α : Type} : List (String × α) → String → Option α
  | [], _ => none
  | (k, v) :: rest, key => if k = key then some v else lookupKV rest key

/-- JavaScript property access `j[k]`: a TypeError on null, the field
for an object (undefined if absent), undefined for every other value.
`none` in the result models undefined. -/
def jsGet : Json → String → Except JsErr (Option Json)
  | .null, _ => .error .typeErr
  | .obj kvs, k => .ok (lookupKV kvs k)
  | _, _ => .ok none

/-- Total field lookup on a decoded value (used in specification-side
statements where the value is known not to be null). -/
def fieldOf (o : Json) (k : String) : Option Json :=
  match o with
  | .obj kvs => lookupKV kvs k
  | _ => none

/-- The JavaScript nullish coalescing `v ?? d`: `d` when `v` is
undefined or null, otherwise `v`. -/
def jsCoalesce : Option Json → Json → Json
  | none, d => d
  | some .null, d => d
  | some v, _ => v

/-- `Array.prototype.flat()` with depth one: splice nested arrays once,
keep every other element. -/
def jsFlatOne : List Json → List Json
  | [] => []
  | .arr ys :: rest => ys ++ jsFlatOne rest
  | v :: rest => v :: jsFlatOne rest

/-- String conversion applied by Array.prototype.join to one element:
null and undefined become the empty string, other values go through
JavaScript String().  Nested arrays are joined with commas (their own
null elements again becoming empty), objects print as
"[object Object]".  Numbers keep their lexeme (String() of a float can
differ on non-canonical lexemes; no claim exercises that branch).
The fuel strictly exceeds the depth of any parsed value. -/
def jsDisplay : Nat → Json → String
  | 0, _ => ""
  | _ + 1, .null => "null"
  | _ + 1, .bool b => if b then "true" else "false"
  | _ + 1, .num lexeme => lexeme
  | _ + 1, .str s => s
  | _ + 1, .obj _ => "[object Object]"
  | fuel + 1, .arr xs =>
    String.intercalate ","
      (xs.map fun x =>
        match x with
        | .null => ""
        | v => jsDisplay fuel v)

/-- `values.join("")` where `values` may contain undefined entries
(absent fields collected by map). -/
def jsJoinEmptySep (fuel : Nat) (vals : List (Option Json)) : String :=
  String.join
    (vals.map fun v =>
      match v with
      | none => ""
      | some .null => ""
      | some w => jsDisplay fuel w)

/-- Whitespace characters removed by String.prototype.trim: the
ECMAScript WhiteSpace and LineTerminator sets (space, tab, newline,
carriage return, vertical tab, form feed, no-break space, BOM, line and
paragraph separators). -/
def isJsTrimWs (c : Char) : Bool :=
  c = ' ' || c = '\t' || c = '\n' || c = '\r' ||
  c.toNat = 11 || c.toNat = 12 || c.toNat = 160 ||
  c.toNat = 65279 || c.toNat = 8232 || c.toNat = 8233

/-- Drop leading trim-whitespace from a character list. -/
def dropJsWs : List Char → List Char
  | c :: cs => if isJsTrimWs c then dropJsWs cs else c :: cs
  | [] => []

/-- String.prototype.trim: strip trim-whitespace from both ends. -/
def jsTrim (s : String) : String :=
  String.mk ((dropJsWs (dropJsWs s.data).reverse).reverse)

/-! ## Message normalizer (src/extensions/lark/src/monitor.ts) -/

/-- The filter pass `parsed.content.flat().filter(item => item.tag === "text")`:
the predicate accesses `item.tag`, raising a TypeError on a null item;
only a string tag strictly equal to "text" keeps the item. -/
def jsFilterTagText : List Json → Except JsErr (List Json)
  | [] => .ok []
  | x :: xs =>
    match jsGet x "tag" with
    | .error e => .error e
    | .ok tag =>
      match jsFilterTagText xs with
      | .error e => .error e
      | .ok rest =>
        match tag with
        | some (.str s) => if s = "text" then .ok (x :: rest) else .ok rest
        | _ => .ok rest

/-- The map pass `.map(item => item.text)`: collects each kept item's
text field (undefined when absent). -/
def jsMapTextField : List Json → Except JsErr (List (Option Json))
  | [] => .ok []
  | x :: xs =>
    match jsGet x "text" with
    | .error e => .error e
    | .ok t =>
      match jsMapTextField xs with
      | .error e => .error e
      | .ok rest => .ok (t :: rest)

/-- Body of extractText inside its try block; an error is whatever the
surrounding catch receives (JSON.parse SyntaxError or a TypeError from
a property access on null). -/
def extractTextE (fuel : Nat) (content messageType : String) : Except JsErr Json :=
  match parseJson content with
  | none => .error .badJson
  | some parsed =>
    if messageType = "text" then
      match jsGet parsed "text" with
      | .error e => .error e
      | .ok t => .ok (jsCoalesce t (.str ""))
    else if messageType = "post" then
      match jsGet parsed "content" with
      | .error e => .error e
      | .ok (some (.arr xs)) =>
        match jsFilterTagText (jsFlatOne xs) with
        | .error e => .error e
        | .ok kept =>
          match jsMapTextField kept with
          | .error e => .error e
          | .ok texts => .ok (.str (jsJoinEmptySep fuel texts))
      | .ok _ =>
        match jsGet parsed "title" with
        | .error e => .error e
        | .ok t => .ok (jsCoalesce t (.str ""))
    else .ok (.str ("[" ++ messageType ++ " message]"))

/-- extractText from monitor.ts: decode the payload and extract plain
text by message kind; any error inside the try block falls back to the
raw content string.  The result is the JavaScript value the function
returns: a string on every path except the "text" kind applied to a
payload whose text field decodes to a non-string, non-null value
(JavaScript then returns that value as-is despite the declared string
return type). -/
def extractText (content messageType : String) : Json :=
  match extractTextE (jsonFuel content) content messageType with
  | .ok v => v
  | .error _ => .str content

/-- `parseInt(s, 10)`: skip leading whitespace, optional sign, then the
longest digit prefix; NaN (modelled as none) when no digit follows. -/
def jsParseInt10 (s : String) : Option Int :=
  let cs := skipWs s.data
  let (neg, cs1) :=
    match cs with
    | '-' :: r => (true, r)
    | '+' :: r => (false, r)
    | _ => (false, cs)
  let (ds, _) := takeDigits cs1
  if ds.isEmpty then none
  else
    let n : Nat := ds.foldl (fun acc c => acc * 10 + (c.toNat - '0'.toNat)) 0
    some (if neg then -(n : Int) else (n : Int))

/-- Chat kind taxonomy of the provider (types.ts). -/
inductive LarkChatType where
  | p2p : LarkChatType
  | group : LarkChatType
deriving DecidableEq

/-- Sender / mention identifier triple (types.ts). -/
structure LarkUserIds where
  open_id : String
  user_id : Option String := none
  union_id : Option String := none
deriving DecidableEq

/-- Sender block of an inbound event (types.ts). -/
structure LarkSender where
  sender_id : LarkUserIds
  sender_type : String
  tenant_key : String
deriving DecidableEq

/-- Mention record inside a message (types.ts). -/
structure LarkMention where
  key : String
  id : LarkUserIds
  name : String
  tenant_key : String
deriving DecidableEq

/-- Message block of an inbound im.message.receive_v1 event (types.ts). -/
structure LarkMessage where
  message_id : String
  root_id : Option String := none
  parent_id : Option String := none
  create_time : String
  update_time : Option String := none
  chat_id : String
  chat_type : LarkChatType
  message_type : String
  content : String
  mentions : Option (List LarkMention) := none
deriving DecidableEq

/-- Inbound event payload (types.ts). -/
structure LarkMessageEvent where
  sender : LarkSender
  message : LarkMessage
deriving DecidableEq

/-- Normalized message (types.ts); mentions are (open_id, name) pairs,
the timestamp is parseInt of the provider's string (none models NaN). -/
structure ParsedMessage where
  messageId : String
  chatId : String
  chatType : LarkChatType
  senderId : String
  senderType : String
  text : String
  threadId : Option String
  mentions : List (String × String)
  timestamp : Option Int
deriving DecidableEq

/-- parseMessage from monitor.ts: extract the text, drop the event when
the trimmed text is empty, otherwise project the event's fields.  The
call `text.trim()` is a method call on the extracted value: it raises a
TypeError when that value is not a string (parseMessage has no
try/catch, so the error propagates to the caller). -/
def parseMessage (event : LarkMessageEvent) : Except JsErr (Option ParsedMessage) :=
  match extractText event.message.content event.message.message_type with
  | .str s =>
    if jsTrim s = "" then .ok none
    else
      .ok (some
        { messageId := event.message.message_id
          chatId := event.message.chat_id
          chatType := event.message.chat_type
          senderId := event.sender.sender_id.open_id
          senderType := event.sender.sender_type
          text := s
          threadId := event.message.root_id
          mentions := (event.message.mentions.getD []).map fun m => (m.id.open_id, m.name)
          timestamp := jsParseInt10 event.message.create_time })
  | _ => .error .typeErr

/-- Log levels used by the runtime logger. -/
inductive LogLevel where
  | debug : LogLevel
  | info : LogLevel
  | errorLevel : LogLevel
deriving DecidableEq

/-- One logger call. -/
structure LogEntry where
  level : LogLevel
  message : String
deriving DecidableEq

/-- Message text of the debug log written when a message is dropped. -/
def skipLogText : String := "[lark] Skipping empty or unparseable message"

/-! ## Account model (src/extensions/lark/src/types.ts) -/

/-- Provider deployment variant. -/
inductive LarkDomain where
  | lark : LarkDomain
  | feishu : LarkDomain
deriving DecidableEq

/-- String value of the domain variant as held in configuration. -/
def domainString : LarkDomain → String
  | .lark => "lark"
  | .feishu => "feishu"

/-- Transport selection. -/
inductive LarkConnectionMode where
  | websocket : LarkConnectionMode
  | webhook : LarkConnectionMode
deriving DecidableEq

/-- Direct-message access policy. -/
inductive DmPolicy where
  | open' : DmPolicy
  | pairing : DmPolicy
  | allowlist : DmPolicy
deriving DecidableEq

/-- Group-chat access policy. -/
inductive GroupPolicy where
  | open' : GroupPolicy
  | allowlist : GroupPolicy
  | disabled : GroupPolicy
deriving DecidableEq

/-- Fully resolved account descriptor (types.ts). -/
structure ResolvedLarkAccount where
  accountId : String
  enabled : Bool
  configured : Bool
  appId : String
  appSecret : String
  encryptKey : Option String
  verificationToken : Option String
  domain : LarkDomain
  connectionMode : LarkConnectionMode
  webhookPort : Nat
  dmPolicy : DmPolicy
  dmAllowlist : List String
  groupPolicy : GroupPolicy
  groupMentionGated : Bool
  groupAllowlist : List String
  historyLimit : Nat
deriving DecidableEq

/-- Routed host-inbound record built by routeMessage (channel "lark",
chat type mapped p2p → direct, otherwise group). -/
structure InboundMessage where
  channel : String
  accountId : String
  messageId : String
  chatId : String
  chatType : String
  senderId : String
  text : String
  threadId : Option String
  timestamp : Option Int
deriving DecidableEq

/-- routeMessage from monitor.ts: normalize the event; on null log at
debug level and do nothing else; otherwise log at info level and hand
the mapped record to the host inbound handler.  The returned pair is
(logger calls, record handed to the inbound handler if any); an error
raised by parseMessage propagates (routeMessage has no try/catch). -/
def routeMessage (event : LarkMessageEvent) (account : ResolvedLarkAccount) :
    Except JsErr (List LogEntry × Option InboundMessage) :=
  match parseMessage event with
  | .error e => .error e
  | .ok none => .ok ([⟨.debug, skipLogText⟩], none)
  | .ok (some parsed) =>
    .ok
      ([⟨.info,
          "[lark] Received message from " ++ parsed.senderId ++ " in " ++
            (match parsed.chatType with
             | .p2p => "p2p"
             | .group => "group") ++ " " ++ parsed.chatId⟩],
        some
          { channel := "lark"
            accountId := account.accountId
            messageId := parsed.messageId
            chatId := parsed.chatId
            chatType := match parsed.chatType with
              | .p2p => "direct"
              | .group => "group"
            senderId := parsed.senderId
            text := parsed.text
            threadId := parsed.threadId
            timestamp := parsed.timestamp })

/-! ## Connection manager state (monitor.ts) -/

/-- The two module-level slots of monitor.ts: the active websocket
client handle and the active webhook server handle (none = idle).
Handles are identified by numbers; their vendor-side behaviour is
opaque. -/
structure MonitorState where
  activeWsClient : Option Nat
  activeWebhookServer : Option Nat
deriving DecidableEq

/-- Calls stopMonitor can issue on vendor handles.  The websocket
variant exists so that "no close call is issued on the socket handle"
is expressible; stopMonitor never produces it. -/
inductive MonitorEffect where
  | webhookStopCalled (handle : Nat) : MonitorEffect
  | wsCloseCalled (handle : Nat) : MonitorEffect
deriving DecidableEq

/-- stopMonitor from monitor.ts: clear the websocket slot without any
vendor call; if a webhook server is active, call its stop operation and
clear its slot.  Returns the new state and the vendor calls issued. -/
def stopMonitor (st : MonitorState) : MonitorState × List MonitorEffect :=
  let st1 :=
    match st.activeWsClient with
    | some _ => { st with activeWsClient := none }
    | none => st
  match st1.activeWebhookServer with
  | some h => ({ st1 with activeWebhookServer := none }, [.webhookStopCalled h])
  | none => (st1, [])

/-! ## Client factory (src/.../client.ts) -/

/-- Cache key: appId, appSecret and domain joined by colons, exactly
the template literal of client.ts. -/
def cacheKey (a : ResolvedLarkAccount) : String :=
  a.appId ++ ":" ++ a.appSecret ++ ":" ++ domainString a.domain

/-- Message of the error thrown by validateCredentials. -/
def missingCredentialsMsg : String := "Lark appId and appSecret are required"

/-- validateCredentials from client.ts: the check is JavaScript
truthiness of the untrimmed strings, so it rejects exactly the empty
string.  Thrown errors are modelled by their message. -/
def validateCredentials (a : ResolvedLarkAccount) : Except String Unit :=
  if a.appId = "" ∨ a.appSecret = "" then .error missingCredentialsMsg
  else .ok ()

/-- The module-level REST client cache: the map from cache keys to
client instances, plus an allocation counter.  Client instances are
identified by allocation order; `new Lark.Client(...)` always yields an
object distinct from every live one, modelled by handing out `nextId`
and incrementing it.  `clearClientCache` drops the entries but not the
counter, since clearing a map does not make old objects equal to new
ones. -/
structure ClientCacheState where
  entries : List (String × Nat)
  nextId : Nat
deriving DecidableEq

/-- The cache at module load: empty. -/
def emptyClientCache : ClientCacheState := ⟨[], 0⟩

/-- createLarkClient from client.ts: validate, then return the cached
instance for the account's key if present, else construct a fresh
client, store it under the key and return it.  The state is returned
unchanged on the throwing path and on a cache hit. -/
def createLarkClient (a : ResolvedLarkAccount) (st : ClientCacheState) :
    Except String Nat × ClientCacheState :=
  match validateCredentials a with
  | .error e => (.error e, st)
  | .ok _ =>
    let key := cacheKey a
    match lookupKV st.entries key with
    | some cached => (.ok cached, st)
    | none =>
      (.ok st.nextId, ⟨st.entries ++ [(key, st.nextId)], st.nextId + 1⟩)

/-- Constructor arguments of a fresh websocket client. -/
structure LarkWSClientModel where
  appId : String
  appSecret : String
  domain : LarkDomain
deriving DecidableEq

/-- createLarkWSClient from client.ts: validate, then always construct
a fresh (never cached) websocket client. -/
def createLarkWSClient (a : ResolvedLarkAccount) : Except String LarkWSClientModel :=
  match validateCredentials a with
  | .error e => .error e
  | .ok _ => .ok ⟨a.appId, a.appSecret, a.domain⟩

/-- clearClientCache from client.ts: evict every entry. -/
def clearClientCache (st : ClientCacheState) : ClientCacheState :=
  ⟨[], st.nextId⟩

/-- Well-formedness of the cache model: every stored instance was
allocated before the counter's current value, and no instance is stored
twice (each client object is constructed and inserted exactly once). -/
def CacheWF (st : ClientCacheState) : Prop :=
  (∀ p ∈ st.entries, p.2 < st.nextId) ∧ (st.entries.map Prod.snd).Nodup

/-! ## Channel configuration model (channel.ts, types.ts) -/

/-- Raw per-account configuration: every field optional (types.ts). -/
structure LarkAccountConfig where
  enabled : Option Bool := none
  appId : Option String := none
  appSecret : Option String := none
  encryptKey : Option String := none
  verificationToken : Option String := none
  domain : Option LarkDomain := none
  connectionMode : Option LarkConnectionMode := none
  webhookPort : Option Nat := none
  dmPolicy : Option DmPolicy := none
  dmAllowlist : Option (List String) := none
  groupPolicy : Option GroupPolicy := none
  groupMentionGated : Option Bool := none
  groupAllowlist : Option (List String) := none
  historyLimit : Option Nat := none
deriving DecidableEq

/-- channels.lark configuration: the accounts field is an object keyed
by account id, modelled as an association list with unique keys. -/
structure LarkChannelConfig where
  enabled : Option Bool := none
  accounts : Option (List (String × LarkAccountConfig)) := none
deriving DecidableEq

/-- The channels block of the host configuration. -/
structure ChannelsConfig where
  lark : Option LarkChannelConfig := none
deriving DecidableEq

/-- Host configuration (only the parts this plugin reads). -/
structure MoltbotConfig where
  channels : Option ChannelsConfig := none
deriving DecidableEq

/-- The process environment variables this plugin reads; none models an
unset variable. -/
structure Env where
  larkAppId : Option String := none
  larkAppSecret : Option String := none
  larkEncryptKey : Option String := none
  larkVerificationToken : Option String := none
deriving DecidableEq

/-- Default values for account configuration (channel.ts DEFAULTS). -/
structure LarkDefaults where
  domain : LarkDomain
  connectionMode : LarkConnectionMode
  webhookPort : Nat
  dmPolicy : DmPolicy
  groupPolicy : GroupPolicy
  groupMentionGated : Bool
  historyLimit : Nat

/-- DEFAULTS from channel.ts. -/
def DEFAULTS : LarkDefaults :=
  { domain := .lark
    connectionMode := .websocket
    webhookPort := 3000
    dmPolicy := .pairing
    groupPolicy := .open'
    groupMentionGated := true
    historyLimit := 10 }

/-- `a ?? b` on optional values. -/
def nullish {α : Type} (a b : Option α) : Option α :=
  match a with
  | some v => some v
  | none => b

/-- getChannelConfig from channel.ts: `cfg.channels?.lark ?? {}` with
the empty object as fallback. -/
def getChannelConfig (cfg : MoltbotConfig) : LarkChannelConfig :=
  match cfg.channels with
  | some chs =>
    match chs.lark with
    | some l => l
    | none => {}
  | none => {}

/-- getAccountConfig from channel.ts:
`channelConfig.accounts?.[accountId] ?? {}`. -/
def getAccountConfig (channelConfig : LarkChannelConfig) (accountId : String) :
    LarkAccountConfig :=
  match channelConfig.accounts with
  | some accs => (lookupKV accs accountId).getD {}
  | none => {}

/-- JavaScript truthiness of an optional environment string: false for
unset and for the empty string. -/
def truthyEnv (v : Option String) : Bool :=
  match v with
  | some s => s ≠ ""
  | none => false

/-- hasEnvCredentials from channel.ts:
`Boolean(process.env.LARK_APP_ID && process.env.LARK_APP_SECRET)`. -/
def hasEnvCredentials (env : Env) : Bool :=
  truthyEnv env.larkAppId && truthyEnv env.larkAppSecret

/-- resolveAccount from channel.ts.  The source always returns a
descriptor (the declared `| null` is never used), which the embedding
reflects by returning `ResolvedLarkAccount` directly.  `configured` is
`Boolean(appId?.trim() && appSecret?.trim())`: both credentials present
with non-empty trimmed value. -/
def resolveAccount (cfg : MoltbotConfig) (accountId : String) (env : Env) :
    ResolvedLarkAccount :=
  let channelConfig := getChannelConfig cfg
  let accountConfig := getAccountConfig channelConfig accountId
  let isDefault := accountId = "default"
  let appId := nullish accountConfig.appId (if isDefault then env.larkAppId else none)
  let appSecret :=
    nullish accountConfig.appSecret (if isDefault then env.larkAppSecret else none)
  let encryptKey :=
    nullish accountConfig.encryptKey (if isDefault then env.larkEncryptKey else none)
  let verificationToken :=
    nullish accountConfig.verificationToken
      (if isDefault then env.larkVerificationToken else none)
  let configured :=
    match appId, appSecret with
    | some a, some s => decide (jsTrim a ≠ "") && decide (jsTrim s ≠ "")
    | _, _ => false
  { accountId := accountId
    enabled := accountConfig.enabled.getD true
    configured := configured
    appId := appId.getD ""
    appSecret := appSecret.getD ""
    encryptKey := encryptKey
    verificationToken := verificationToken
    domain := accountConfig.domain.getD DEFAULTS.domain
    connectionMode := accountConfig.connectionMode.getD DEFAULTS.connectionMode
    webhookPort := accountConfig.webhookPort.getD DEFAULTS.webhookPort
    dmPolicy := accountConfig.dmPolicy.getD DEFAULTS.dmPolicy
    dmAllowlist := accountConfig.dmAllowlist.getD []
    groupPolicy := accountConfig.groupPolicy.getD DEFAULTS.groupPolicy
    groupMentionGated := accountConfig.groupMentionGated.getD DEFAULTS.groupMentionGated
    groupAllowlist := accountConfig.groupAllowlist.getD []
    historyLimit := accountConfig.historyLimit.getD DEFAULTS.historyLimit }

/-- listAccountIds from channel.ts: the keys of the stored accounts
object, with "default" pushed at the end when it is not among them and
the environment credentials are truthy. -/
def listAccountIds (cfg : MoltbotConfig) (env : Env) : List String :=
  let channelConfig := getChannelConfig cfg
  let accountIds := (channelConfig.accounts.getD []).map Prod.fst
  if !accountIds.contains "default" && hasEnvCredentials env then
    accountIds ++ ["default"]
  else accountIds

/-- The optional chain `getChannelConfig(cfg).accounts?.default` used
by every policy lookup. -/
def defaultAccountConfig (cfg : MoltbotConfig) : Option LarkAccountConfig :=
  match (getChannelConfig cfg).accounts with
  | some accs => lookupKV accs "default"
  | none => none

/-- dmPolicy.mode from channel.ts (the env argument models the ambient
process environment available to the function; the code reads none of
it). -/
def dmPolicyMode (cfg : MoltbotConfig) (_env : Env) : DmPolicy :=
  match defaultAccountConfig cfg with
  | some a => a.dmPolicy.getD DEFAULTS.dmPolicy
  | none => DEFAULTS.dmPolicy

/-- dmPolicy.allowlist from channel.ts. -/
def dmPolicyAllowlist (cfg : MoltbotConfig) (_env : Env) : List String :=
  match defaultAccountConfig cfg with
  | some a => a.dmAllowlist.getD []
  | none => []

/-- groupPolicy.mode from channel.ts. -/
def groupPolicyMode (cfg : MoltbotConfig) (_env : Env) : GroupPolicy :=
  match defaultAccountConfig cfg with
  | some a => a.groupPolicy.getD DEFAULTS.groupPolicy
  | none => DEFAULTS.groupPolicy

/-- groupPolicy.mentionGated from channel.ts. -/
def groupPolicyMentionGated (cfg : MoltbotConfig) (_env : Env) : Bool :=
  match defaultAccountConfig cfg with
  | some a => a.groupMentionGated.getD DEFAULTS.groupMentionGated
  | none => DEFAULTS.groupMentionGated

/-- groupPolicy.allowlist from channel.ts. -/
def groupPolicyAllowlist (cfg : MoltbotConfig) (_env : Env) : List String :=
  match defaultAccountConfig cfg with
  | some a => a.groupAllowlist.getD []
  | none => []

/-! ## Outbound sender (channel.ts sendTextMessage) -/

/-- Result of one outbound send (types.ts SendResult). -/
structure SendResult where
  ok : Bool
  messageId : Option String := none
  error : Option String := none
deriving DecidableEq

/-- inferReceiveIdType from channel.ts: ids starting with "oc_" are
chat ids, anything else an open id. -/
def inferReceiveIdType (recipientId : String) : String :=
  if recipientId.startsWith "oc_" then "chat_id" else "open_id"

/-- JSON.stringify escaping of one character inside a string literal. -/
def jsonEscapeChar (c : Char) : String :=
  if c = '"' then "\\\""
  else if c = '\\' then "\\\\"
  else if c = '\n' then "\\n"
  else if c = '\r' then "\\r"
  else if c = '\t' then "\\t"
  else if c.toNat = 8 then "\\b"
  else if c.toNat = 12 then "\\f"
  else if c.toNat < 32 then
    "\\u00" ++ String.mk [(Nat.digitChar (c.toNat / 16)), (Nat.digitChar (c.toNat % 16))]
  else String.singleton c

/-- JSON.stringify of a string value. -/
def jsonStringifyString (s : String) : String :=
  "\"" ++ String.join (s.data.map jsonEscapeChar) ++ "\""

/-- `JSON.stringify(\x7b text \x7d)`: the message content payload. -/
def stringifyTextContent (text : String) : String :=
  "\x7b\"text\":" ++ jsonStringifyString text ++ "\x7d"

/-- Request handed to client.im.message.create. -/
structure CreateMessageRequest where
  receive_id_type : String
  receive_id : String
  msg_type : String
  content : String
  root_id : Option String
deriving DecidableEq

/-- Payload of a provider response. -/
structure CreateMessageData where
  message_id : Option String
deriving DecidableEq

/-- Provider response to message.create. -/
structure CreateMessageResponse where
  code : Int
  msg : Option String := none
  data : Option CreateMessageData := none
deriving DecidableEq

/-- The provider's behaviour for one call, as observed at the await:
either a response or a thrown error, the latter modelled by the message
string the catch clause derives from it (`error.message` for an Error,
"Unknown error" otherwise). -/
def ProviderBehavior : Type := CreateMessageRequest → Except String CreateMessageResponse

/-- The request sendTextMessage builds: inferred receive id type, text
payload, and the thread id attached as root_id only when truthy (the
spread `...(threadId && \x7b root_id \x7d)` drops an empty string). -/
def buildSendRequest (recipientId text : String) (threadId : Option String) :
    CreateMessageRequest :=
  { receive_id_type := inferReceiveIdType recipientId
    receive_id := recipientId
    msg_type := "text"
    content := stringifyTextContent text
    root_id :=
      match threadId with
      | some t => if t = "" then none else some t
      | none => none }

/-- sendTextMessage from channel.ts: create (or fetch) the REST client,
issue one message.create call, and convert every outcome to a
SendResult; the surrounding try/catch converts any thrown error
(including MissingCredentials from the client factory) into a failure
result, so the function is total. -/
def sendTextMessage (account : ResolvedLarkAccount) (recipientId text : String)
    (threadId : Option String) (provider : ProviderBehavior)
    (st : ClientCacheState) : SendResult × ClientCacheState :=
  match createLarkClient account st with
  | (.error e, st') => ({ ok := false, messageId := none, error := some e }, st')
  | (.ok _, st') =>
    match provider (buildSendRequest recipientId text threadId) with
    | .error e => ({ ok := false, messageId := none, error := some e }, st')
    | .ok resp =>
      if resp.code = 0 then
        match resp.data with
        | some d => ({ ok := true, messageId := d.message_id, error := none }, st')
        | none =>
          ({ ok := false, messageId := none, error := some (resp.msg.getD "Unknown error") }, st')
      else
        ({ ok := false, messageId := none, error := some (resp.msg.getD "Unknown error") }, st')

/-! ## Specification-side definitions

These follow the wording of the specification (field precedence,
listable ids, text-block filtering) and are compared against the
embedded source functions by the theorems below. -/

/-- Field precedence as the specification words it: the stored value if
present, else — only for the default account — the environment value,
else the hard-coded default. -/
def resolveField {α : Type} (stored envVal : Option α) (isDefault : Prop)
    [Decidable isDefault] (dflt : α) : α :=
  match stored with
  | some v => v
  | none => if isDefault then envVal.getD dflt else dflt

/-- Same precedence for the two fields that stay optional after
resolution (no hard-coded default exists for them). -/
def resolveOptField {α : Type} (stored envVal : Option α) (isDefault : Prop)
    [Decidable isDefault] : Option α :=
  match stored with
  | some v => some v
  | none => if isDefault then envVal else none

/-- The keys of the stored accounts mapping. -/
def storedAccountKeys (cfg : MoltbotConfig) : List String :=
  ((getChannelConfig cfg).accounts.getD []).map Prod.fst

/-- "Both environment credential variables are set": present with a
non-empty value (an empty string is indistinguishable from unset to the
truthiness check the code performs). -/
def envCredentialsSet (env : Env) : Prop :=
  (∃ s, env.larkAppId = some s ∧ s ≠ "") ∧
  (∃ s, env.larkAppSecret = some s ∧ s ≠ "")

/-- A block counts as plain text when its tag field is the string
"text" (specification wording for the rich-text filter). -/
def isTextTagged (x : Json) : Bool :=
  match x with
  | .obj kvs =>
    match lookupKV kvs "tag" with
    | some (.str s) => s = "text"
    | _ => false
  | _ => false

/-- The text carried by a text-tagged block. -/
def blockTextStr (x : Json) : String :=
  match fieldOf x "text" with
  | some (.str s) => s
  | _ => ""

/-- A block is not JSON null.  A null block makes the filter
predicate's property access raise, sending extractText to its raw
fallback. -/
def nonNullBlock (x : Json) : Bool :=
  match x with
  | .null => false
  | _ => true

/-- A block's text field joins as plain text: a string contributes
itself, an absent or null field the empty string.  Any other value is
joined through JavaScript's string conversion instead. -/
def textFieldJoinable (x : Json) : Bool :=
  match fieldOf x "text" with
  | some (.str _) => true
  | some .null => true
  | none => true
  | _ => false

/-! ## Concrete fixtures for witnesses and counterexamples -/

/-- A resolved account with valid credentials. -/
def baseAccount : ResolvedLarkAccount :=
  { accountId := "default"
    enabled := true
    configured := true
    appId := "app"
    appSecret := "sec"
    encryptKey := none
    verificationToken := none
    domain := .lark
    connectionMode := .websocket
    webhookPort := 3000
    dmPolicy := .pairing
    dmAllowlist := []
    groupPolicy := .open'
    groupMentionGated := true
    groupAllowlist := []
    historyLimit := 10 }

/-- An account whose app id is whitespace only: non-empty, hence truthy
for validateCredentials, yet empty after trimming. -/
def wsAccount : ResolvedLarkAccount := { baseAccount with appId := " " }

/-- An account differing from baseAccount in the app id only. -/
def otherAppIdAccount : ResolvedLarkAccount := { baseAccount with appId := "app2" }

/-- An account with an empty app id. -/
def emptyIdAccount : ResolvedLarkAccount := { baseAccount with appId := "" }

/-- An inbound event fixture around the given payload and kind. -/
def mkEvent (content messageType : String) : LarkMessageEvent :=
  { sender :=
      { sender_id := { open_id := "ou_sender" }
        sender_type := "user"
        tenant_key := "tk" }
    message :=
      { message_id := "om_1"
        create_time := "1700000000"
        chat_id := "oc_chat"
        chat_type := .p2p
        message_type := messageType
        content := content } }

/-- Event whose text payload is whitespace only. -/
def blankTextEvent : LarkMessageEvent := mkEvent "\x7b\"text\": \"   \"\x7d" "text"

/-- Event whose text payload is the string "hello". -/
def helloTextEvent : LarkMessageEvent := mkEvent "\x7b\"text\": \"hello\"\x7d" "text"

/-- Event whose text payload decodes to the number 5 rather than a
string. -/
def numTextEvent : LarkMessageEvent := mkEvent "\x7b\"text\": 5\x7d" "text"

/-- Rich-text payload with two text blocks "a" and "b" in one row. -/
def postAbContent : String :=
  "\x7b\"content\":[[\x7b\"tag\":\"text\",\"text\":\"a\"\x7d,\x7b\"tag\":\"text\",\"text\":\"b\"\x7d]]\x7d"

/-- Rich-text payload whose single flattened block is JSON null: the
filter predicate's property access raises on it. -/
def nullBlockContent : String := "\x7b\"content\":[[null]]\x7d"

/-- Rich-text payload with one block whose text field is the number 5:
the join converts it through JavaScript string conversion. -/
def postNumContent : String :=
  "\x7b\"content\":[[\x7b\"tag\":\"text\",\"text\":5\x7d]]\x7d"

/-- Event whose rich payload has no block array and a numeric title:
extractText returns the number via the title fallback. -/
def titleNumEvent : LarkMessageEvent := mkEvent "\x7b\"title\": 5\x7d" "post"

/-- Provider behaviour that always succeeds with message id "om_42". -/
def providerOk : ProviderBehavior :=
  fun _ => .ok { code := 0, msg := none, data := some { message_id := some "om_42" } }

/-- Environment of the specification's resolution scenario: app id
cli_x, app secret secret_y, nothing else. -/
def scenarioEnv : Env :=
  { larkAppId := some "cli_x", larkAppSecret := some "secret_y" }

/-- A configuration storing a default account with explicit policies
and an unrelated second account. -/
def policyCfg : MoltbotConfig :=
  { channels := some
      { lark := some
          { accounts := some
              [("default",
                { dmPolicy := some .open'
                  dmAllowlist := some ["u1"]
                  groupPolicy := some .disabled
                  groupMentionGated := some false
                  groupAllowlist := some ["g1"] }),
               ("second",
                { dmPolicy := some .allowlist
                  appId := some "x" })] } } }

/-- The same configuration with a different non-default account. -/
def policyCfgVariant : MoltbotConfig :=
  { channels := some
      { lark := some
          { accounts := some
              [("default",
                { dmPolicy := some .open'
                  dmAllowlist := some ["u1"]
                  groupPolicy := some .disabled
                  groupMentionGated := some false
                  groupAllowlist := some ["g1"] }),
               ("third",
                { groupPolicy := some .open' })] } } }

/-- A configuration storing exactly one account named "acct". -/
def acctOnlyCfg : MoltbotConfig :=
  { channels := some
      { lark := some
          { accounts := some [("acct", { appId := some "a" })] } } }

/-! # Helper lemmas -/

theorem string_data_inj {s₁ s₂ : String} (h : s₁.data = s₂.data) : s₁ = s₂ := by
  cases s₁; cases s₂; exact congrArg String.mk h

theorem nullish_if_getD {α : Type} (a b : Option α) (P : Prop) [Decidable P] (d : α) :
    (nullish a (if P then b else none)).getD d = resolveField a b P d := by
  cases a with
  | some v => rfl
  | none =>
    simp only [nullish, resolveField]
    by_cases h : P <;> simp [h]

theorem nullish_if_opt {α : Type} (a b : Option α) (P : Prop) [Decidable P] :
    nullish a (if P then b else none) = resolveOptField a b P := by
  cases a with
  | some v => rfl
  | none => simp only [nullish, resolveOptField]

theorem getD_resolveField {α : Type} (a : Option α) (P : Prop) [Decidable P] (d : α) :
    a.getD d = resolveField a none P d := by
  cases a with
  | some v => rfl
  | none =>
    simp only [Option.getD, resolveField]
    by_cases h : P <;> simp [h]

theorem configured_match_eq (oA oS : Option String) :
    (match oA, oS with
     | some a, some s => decide (jsTrim a ≠ "") && decide (jsTrim s ≠ "")
     | _, _ => false) =
    (decide (jsTrim (oA.getD "") ≠ "") && decide (jsTrim (oS.getD "") ≠ "")) := by
  cases oA <;> cases oS <;> simp [show jsTrim "" = "" from rfl]

theorem configured_eq (cfg : MoltbotConfig) (accountId : String) (env : Env) :
    (resolveAccount cfg accountId env).configured =
      (decide (jsTrim (resolveAccount cfg accountId env).appId ≠ "") &&
       decide (jsTrim (resolveAccount cfg accountId env).appSecret ≠ "")) := by
  simp only [resolveAccount]
  exact configured_match_eq _ _

theorem jsGet_eq_fieldOf {x : Json} (h : x ≠ .null) (k : String) :
    jsGet x k = .ok (fieldOf x k) := by
  cases x with
  | null => exact absurd rfl h
  | bool b => rfl
  | num l => rfl
  | str s => rfl
  | arr xs => rfl
  | obj kvs => rfl

theorem isTextTagged_eq_fieldOf (x : Json) :
    isTextTagged x =
      (match fieldOf x "tag" with
       | some (.str s) => decide (s = "text")
       | _ => false) := by
  cases x <;> rfl

theorem jsFilterTagText_null {l : List Json} (h : Json.null ∈ l) :
    jsFilterTagText l = .error .typeErr := by
  induction l with
  | nil => exact absurd h (List.not_mem_nil _)
  | cons x xs ih =>
    by_cases hx : x = Json.null
    · subst hx
      rfl
    · have hxs : Json.null ∈ xs := by
        rcases List.mem_cons.mp h with h' | h'
        · exact absurd h'.symm hx
        · exact h'
      simp [jsFilterTagText, jsGet_eq_fieldOf hx, ih hxs]

theorem jsFilterTagText_eq {l : List Json} (h : ∀ x ∈ l, x ≠ .null) :
    jsFilterTagText l = .ok (l.filter isTextTagged) := by
  induction l with
  | nil => rfl
  | cons x xs ih =>
    have hxs : ∀ y ∈ xs, y ≠ .null := fun y hy => h y (by simp [hy])
    rw [jsFilterTagText, jsGet_eq_fieldOf (h x (by simp)), ih hxs]
    rw [List.filter_cons, isTextTagged_eq_fieldOf x]
    rcases hf : fieldOf x "tag" with _ | v
    · simp
    · cases v <;> simp
      case str s => by_cases hs : s = "text" <;> simp [hs]

theorem jsMapTextField_eq {l : List Json} (h : ∀ x ∈ l, x ≠ .null) :
    jsMapTextField l = .ok (l.map fun x => fieldOf x "text") := by
  induction l with
  | nil => rfl
  | cons x xs ih =>
    have hxs : ∀ y ∈ xs, y ≠ .null := fun y hy => h y (by simp [hy])
    rw [jsMapTextField, jsGet_eq_fieldOf (h x (by simp)), ih hxs]
    rfl

theorem jsJoin_text_blocks (fuel : Nat) (hf : 0 < fuel) (l : List Json)
    (h : ∀ x ∈ l, textFieldJoinable x = true) :
    jsJoinEmptySep fuel (l.map fun x => fieldOf x "text") =
      String.join (l.map blockTextStr) := by
  obtain ⟨fuel', rfl⟩ : ∃ f, fuel = f + 1 := ⟨fuel - 1, by omega⟩
  unfold jsJoinEmptySep
  rw [List.map_map]
  congr 1
  refine List.map_congr_left ?_
  intro x hx
  have hj := h x hx
  unfold textFieldJoinable at hj
  rcases hs : fieldOf x "text" with _ | v
  · simp [Function.comp, hs, blockTextStr]
  · rw [hs] at hj
    cases v <;> simp_all [Function.comp, hs, blockTextStr, jsDisplay]

theorem jsonFuel_pos (s : String) : 0 < jsonFuel s := by
  unfold jsonFuel
  omega

theorem sendTextMessage_error_creds (account : ResolvedLarkAccount) (r t : String)
    (th : Option String) (p : ProviderBehavior) (st : ClientCacheState) (e : String)
    (h : validateCredentials account = .error e) :
    sendTextMessage account r t th p st = (⟨false, none, some e⟩, st) := by
  unfold sendTextMessage createLarkClient
  rw [h]

theorem sendTextMessage_ok_creds (account : ResolvedLarkAccount) (r t : String)
    (th : Option String) (p : ProviderBehavior) (st : ClientCacheState)
    (h : validateCredentials account = .ok ()) :
    (sendTextMessage account r t th p st).1 =
      (match p (buildSendRequest r t th) with
       | .error e => ⟨false, none, some e⟩
       | .ok resp =>
         if resp.code = 0 then
           match resp.data with
           | some d => ⟨true, d.message_id, none⟩
           | none => ⟨false, none, some (resp.msg.getD "Unknown error")⟩
         else ⟨false, none, some (resp.msg.getD "Unknown error")⟩ : SendResult) := by
  unfold sendTextMessage createLarkClient
  rw [h]
  cases hl : lookupKV st.entries (cacheKey account) <;>
    rcases hp : p (buildSendRequest r t th) with e2 | resp <;>
      simp only [hl, hp]
  all_goals by_cases hc : resp.code = 0 <;> cases hd : resp.data <;> simp [hc, hd]

theorem lookupKV_mem {α : Type} {xs : List (String × α)} {k : String} {v : α}
    (h : lookupKV xs k = some v) : (k, v) ∈ xs := by
  induction xs with
  | nil => exact absurd h (by simp [lookupKV])
  | cons p rest ih =>
    obtain ⟨k', v'⟩ := p
    rw [lookupKV] at h
    by_cases hk : k' = k
    · rw [if_pos hk] at h
      injection h with hv
      subst hk
      subst hv
      exact List.mem_cons_self _ _
    · rw [if_neg hk] at h
      exact List.mem_cons_of_mem _ (ih h)

theorem lookupKV_values_ne {xs : List (String × Nat)} (hnd : (xs.map Prod.snd).Nodup)
    {k1 k2 : String} {v1 v2 : Nat} (hk : k1 ≠ k2)
    (h1 : lookupKV xs k1 = some v1) (h2 : lookupKV xs k2 = some v2) : v1 ≠ v2 := by
  induction xs with
  | nil => simp [lookupKV] at h1
  | cons p rest ih =>
    obtain ⟨k, v⟩ := p
    rw [lookupKV] at h1 h2
    simp only [List.map_cons, List.nodup_cons] at hnd
    obtain ⟨hnotin, hnd'⟩ := hnd
    by_cases e1 : k = k1 <;> by_cases e2 : k = k2
    · exact absurd (e1 ▸ e2) hk
    · rw [if_pos e1] at h1
      rw [if_neg e2] at h2
      injection h1 with hv1
      intro he
      exact hnotin (List.mem_map.mpr ⟨(k2, v2), lookupKV_mem h2, (hv1.trans he).symm⟩)
    · rw [if_neg e1] at h1
      rw [if_pos e2] at h2
      injection h2 with hv2
      intro he
      exact hnotin (List.mem_map.mpr ⟨(k1, v1), lookupKV_mem h1, he.trans hv2.symm⟩)
    · rw [if_neg e1] at h1
      rw [if_neg e2] at h2
      exact ih hnd' h1 h2

theorem createLarkClient_ok_validate {a : ResolvedLarkAccount} {st : ClientCacheState}
    {c : Nat} {st' : ClientCacheState} (h : createLarkClient a st = (.ok c, st')) :
    validateCredentials a = .ok () := by
  unfold createLarkClient at h
  cases hv : validateCredentials a with
  | error e =>
    rw [hv] at h
    have := congrArg Prod.fst h
    exact absurd this (by simp)
  | ok u =>
    cases u
    rfl

theorem createLarkClient_hit {a : ResolvedLarkAccount} {st : ClientCacheState} {c : Nat}
    (hv : validateCredentials a = .ok ())
    (hl : lookupKV st.entries (cacheKey a) = some c) :
    createLarkClient a st = (.ok c, st) := by
  unfold createLarkClient
  rw [hv]
  simp only [hl]

theorem createLarkClient_miss (a : ResolvedLarkAccount) (st : ClientCacheState)
    (hv : validateCredentials a = .ok ())
    (hl : lookupKV st.entries (cacheKey a) = none) :
    createLarkClient a st =
      (.ok st.nextId, ⟨st.entries ++ [(cacheKey a, st.nextId)], st.nextId + 1⟩) := by
  unfold createLarkClient
  rw [hv]
  simp only [hl]

theorem lookupKV_append_self {α : Type} {xs : List (String × α)} {k : String} (v : α)
    (h : lookupKV xs k = none) : lookupKV (xs ++ [(k, v)]) k = some v := by
  induction xs with
  | nil => simp [lookupKV]
  | cons p rest ih =>
    obtain ⟨k', v'⟩ := p
    rw [lookupKV] at h
    by_cases hk : k' = k
    · rw [if_pos hk] at h
      exact absurd h (by simp)
    · rw [if_neg hk] at h
      rw [List.cons_append, lookupKV, if_neg hk]
      exact ih h

theorem createLarkClient_lookup {a : ResolvedLarkAccount} {st : ClientCacheState}
    {c : Nat} {st' : ClientCacheState} (h : createLarkClient a st = (.ok c, st')) :
    lookupKV st'.entries (cacheKey a) = some c := by
  have hv := createLarkClient_ok_validate h
  cases hl : lookupKV st.entries (cacheKey a) with
  | some v =>
    rw [createLarkClient_hit hv hl] at h
    obtain ⟨h1, h2⟩ := Prod.mk.injEq .. ▸ h
    injection h1 with hc
    subst hc
    subst h2
    exact hl
  | none =>
    rw [createLarkClient_miss _ _ hv hl] at h
    obtain ⟨h1, h2⟩ := Prod.mk.injEq .. ▸ h
    injection h1 with hc
    subst hc
    subst h2
    exact lookupKV_append_self _ hl

theorem createLarkClient_wf (a : ResolvedLarkAccount) (st : ClientCacheState)
    (hwf : CacheWF st) : CacheWF (createLarkClient a st).2 := by
  cases hv : validateCredentials a with
  | error e =>
    unfold createLarkClient
    simp only [hv]
    exact hwf
  | ok u =>
    cases u
    cases hl : lookupKV st.entries (cacheKey a) with
    | some v =>
      rw [createLarkClient_hit hv hl]
      exact hwf
    | none =>
      rw [createLarkClient_miss _ _ hv hl]
      obtain ⟨hbound, hnd⟩ := hwf
      constructor
      · intro p hp
        rcases List.mem_append.mp hp with hp | hp
        · exact Nat.lt_succ_of_lt (hbound p hp)
        · simp at hp
          subst hp
          exact Nat.lt_succ_self _
      · rw [List.map_append]
        refine List.Nodup.append hnd (by simp) ?_
        intro n hn hn'
        simp at hn'
        subst hn'
        obtain ⟨p, hp, hps⟩ := List.mem_map.mp hn
        exact absurd (hps ▸ hbound p hp) (Nat.lt_irrefl _)

theorem createLarkClient_bound {a : ResolvedLarkAccount} {st : ClientCacheState}
    {c : Nat} {st' : ClientCacheState} (hwf : CacheWF st)
    (h : createLarkClient a st = (.ok c, st')) : c < st'.nextId := by
  have hwf' : CacheWF st' := by
    have := createLarkClient_wf a st hwf
    rw [h] at this
    exact this
  exact hwf'.1 _ (lookupKV_mem (createLarkClient_lookup h))

theorem cacheKey_data (a : ResolvedLarkAccount) :
    (cacheKey a).data =
      a.appId.data ++ ':' :: (a.appSecret.data ++ ':' :: (domainString a.domain).data) := by
  simp [cacheKey, String.data_append, show (":" : String).data = [':'] from rfl]

theorem domainString_inj {d1 d2 : LarkDomain} (h : domainString d1 = domainString d2) :
    d1 = d2 := by
  cases d1 <;> cases d2 <;> first
    | rfl
    | exact absurd h (by decide)

theorem cacheKey_congr {a1 a2 : ResolvedLarkAccount} (h1 : a1.appId = a2.appId)
    (h2 : a1.appSecret = a2.appSecret) (h3 : a1.domain = a2.domain) :
    cacheKey a1 = cacheKey a2 := by
  unfold cacheKey
  rw [h1, h2, h3]

theorem cacheKey_ne {a1 a2 : ResolvedLarkAccount}
    (h : (a1.appId ≠ a2.appId ∧ a1.appSecret = a2.appSecret ∧ a1.domain = a2.domain) ∨
         (a1.appId = a2.appId ∧ a1.appSecret ≠ a2.appSecret ∧ a1.domain = a2.domain) ∨
         (a1.appId = a2.appId ∧ a1.appSecret = a2.appSecret ∧ a1.domain ≠ a2.domain)) :
    cacheKey a1 ≠ cacheKey a2 := by
  intro he
  have hd := congrArg String.data he
  rw [cacheKey_data, cacheKey_data] at hd
  rcases h with ⟨h1, h2, h3⟩ | ⟨h1, h2, h3⟩ | ⟨h1, h2, h3⟩
  · rw [h2, h3] at hd
    exact h1 (string_data_inj (List.append_cancel_right hd))
  · rw [h1, h3] at hd
    have hx := List.append_cancel_left hd
    injection hx with _ hx2
    exact h2 (string_data_inj (List.append_cancel_right hx2))
  · rw [h1, h2] at hd
    have hx := List.append_cancel_left hd
    injection hx with _ hx2
    have hy := List.append_cancel_left hx2
    injection hy with _ hy2
    exact h3 (domainString_inj (string_data_inj hy2))

/-! # Claim theorems -/

/-- C1: for every configuration, account id and environment, the
descriptor returned by resolveAccount has configured = true iff both
the resolved app id and the resolved app secret are non-empty after
trimming whitespace; and configured is a function of those two fields
alone — two resolutions agreeing on appId and appSecret agree on
configured. -/
theorem c1_configured_iff_trimmed_credentials (cfg : MoltbotConfig)
    (accountId : String) (env : Env) :
    ((resolveAccount cfg accountId env).configured = true ↔
      jsTrim (resolveAccount cfg accountId env).appId ≠ "" ∧
      jsTrim (resolveAccount cfg accountId env).appSecret ≠ "") ∧
    (∀ (cfg' : MoltbotConfig) (accountId' : String) (env' : Env),
      (resolveAccount cfg accountId env).appId =
        (resolveAccount cfg' accountId' env').appId →
      (resolveAccount cfg accountId env).appSecret =
        (resolveAccount cfg' accountId' env').appSecret →
      (resolveAccount cfg accountId env).configured =
        (resolveAccount cfg' accountId' env').configured) := by
  constructor
  · rw [configured_eq]
    simp [Bool.and_eq_true, decide_eq_true_iff]
  · intro cfg' accountId' env' hId hSec
    rw [configured_eq, configured_eq, hId, hSec]

/-- Witness for C1 at concrete inputs: the default account resolved
purely from environment credentials is configured, and two resolutions
with identical credential fields have identical configured flags. -/
theorem c1_configured_witness :
    (resolveAccount {} "default" scenarioEnv).configured = true ∧
    (resolveAccount {} "x" {}).configured = (resolveAccount {} "y" {}).configured :=
  ⟨(c1_configured_iff_trimmed_credentials {} "default" scenarioEnv).1.mpr
      ⟨by decide, by decide⟩,
   (c1_configured_iff_trimmed_credentials {} "x" {}).2 {} "y" {} rfl rfl⟩

/-- C2: resolveAccount is total (the embedding returns a descriptor for
every input, mirroring the source, whose declared null is unreachable)
and resolves every field by the precedence stored-value, then (for the
default account only) environment value, then hard-coded default; in
particular the spec scenario: default account, no stored config,
environment credentials cli_x / secret_y give configured, appId cli_x,
websocket mode, historyLimit 10. -/
theorem c2_resolveAccount_precedence_and_scenario (cfg : MoltbotConfig)
    (accountId : String) (env : Env) :
    ((resolveAccount cfg accountId env).accountId = accountId ∧
     (resolveAccount cfg accountId env).enabled =
       resolveField (getAccountConfig (getChannelConfig cfg) accountId).enabled
         none (accountId = "default") true ∧
     (resolveAccount cfg accountId env).appId =
       resolveField (getAccountConfig (getChannelConfig cfg) accountId).appId
         env.larkAppId (accountId = "default") "" ∧
     (resolveAccount cfg accountId env).appSecret =
       resolveField (getAccountConfig (getChannelConfig cfg) accountId).appSecret
         env.larkAppSecret (accountId = "default") "" ∧
     (resolveAccount cfg accountId env).encryptKey =
       resolveOptField (getAccountConfig (getChannelConfig cfg) accountId).encryptKey
         env.larkEncryptKey (accountId = "default") ∧
     (resolveAccount cfg accountId env).verificationToken =
       resolveOptField
         (getAccountConfig (getChannelConfig cfg) accountId).verificationToken
         env.larkVerificationToken (accountId = "default") ∧
     (resolveAccount cfg accountId env).domain =
       resolveField (getAccountConfig (getChannelConfig cfg) accountId).domain
         none (accountId = "default") DEFAULTS.domain ∧
     (resolveAccount cfg accountId env).connectionMode =
       resolveField (getAccountConfig (getChannelConfig cfg) accountId).connectionMode
         none (accountId = "default") DEFAULTS.connectionMode ∧
     (resolveAccount cfg accountId env).webhookPort =
       resolveField (getAccountConfig (getChannelConfig cfg) accountId).webhookPort
         none (accountId = "default") DEFAULTS.webhookPort ∧
     (resolveAccount cfg accountId env).dmPolicy =
       resolveField (getAccountConfig (getChannelConfig cfg) accountId).dmPolicy
         none (accountId = "default") DEFAULTS.dmPolicy ∧
     (resolveAccount cfg accountId env).dmAllowlist =
       resolveField (getAccountConfig (getChannelConfig cfg) accountId).dmAllowlist
         none (accountId = "default") [] ∧
     (resolveAccount cfg accountId env).groupPolicy =
       resolveField (getAccountConfig (getChannelConfig cfg) accountId).groupPolicy
         none (accountId = "default") DEFAULTS.groupPolicy ∧
     (resolveAccount cfg accountId env).groupMentionGated =
       resolveField
         (getAccountConfig (getChannelConfig cfg) accountId).groupMentionGated
         none (accountId = "default") DEFAULTS.groupMentionGated ∧
     (resolveAccount cfg accountId env).groupAllowlist =
       resolveField (getAccountConfig (getChannelConfig cfg) accountId).groupAllowlist
         none (accountId = "default") [] ∧
     (resolveAccount cfg accountId env).historyLimit =
       resolveField (getAccountConfig (getChannelConfig cfg) accountId).historyLimit
         none (accountId = "default") DEFAULTS.historyLimit) ∧
    ((resolveAccount {} "default" scenarioEnv).configured = true ∧
     (resolveAccount {} "default" scenarioEnv).appId = "cli_x" ∧
     (resolveAccount {} "default" scenarioEnv).connectionMode = .websocket ∧
     (resolveAccount {} "default" scenarioEnv).historyLimit = 10) := by
  refine ⟨⟨rfl, ?_, ?_, ?_, ?_, ?_, ?_, ?_, ?_, ?_, ?_, ?_, ?_, ?_, ?_⟩,
    rfl, rfl, rfl, rfl⟩
  all_goals simp only [resolveAccount]
  · exact getD_resolveField _ _ _
  · exact nullish_if_getD _ _ _ _
  · exact nullish_if_getD _ _ _ _
  · exact nullish_if_opt _ _ _
  · exact nullish_if_opt _ _ _
  all_goals exact getD_resolveField _ _ _

/-- Counterexample for C3 as stated: an account whose app id is a
single space is empty after trimming, yet createLarkWSClient succeeds
instead of throwing — the source checks JavaScript truthiness of the
untrimmed strings. -/
theorem c3_whitespace_appid_counterexample :
    createLarkWSClient wsAccount = .ok ⟨" ", "sec", .lark⟩ ∧
    jsTrim wsAccount.appId = "" :=
  ⟨rfl, rfl⟩

/-- C3 (amended): createLarkClient and createLarkWSClient throw the
MissingCredentials error precisely when the app id or the app secret is
the empty string (no trimming), succeed whenever both are non-empty,
and on the throwing path the cache state is unchanged. -/
theorem c3_missing_credentials_untrimmed (a : ResolvedLarkAccount)
    (st : ClientCacheState) :
    ((createLarkClient a st).1 = .error missingCredentialsMsg ↔
      a.appId = "" ∨ a.appSecret = "") ∧
    (createLarkWSClient a = .error missingCredentialsMsg ↔
      a.appId = "" ∨ a.appSecret = "") ∧
    (a.appId = "" ∨ a.appSecret = "" → (createLarkClient a st).2 = st) ∧
    (a.appId ≠ "" → a.appSecret ≠ "" → ∃ c, (createLarkClient a st).1 = .ok c) ∧
    (a.appId ≠ "" → a.appSecret ≠ "" →
      createLarkWSClient a = .ok ⟨a.appId, a.appSecret, a.domain⟩) := by
  by_cases h : a.appId = "" ∨ a.appSecret = ""
  · refine ⟨?_, ?_, ?_, ?_, ?_⟩ <;>
      simp [createLarkClient, createLarkWSClient, validateCredentials, h] <;>
      (try tauto)
  · have h1 : a.appId ≠ "" := fun hx => h (Or.inl hx)
    have h2 : a.appSecret ≠ "" := fun hx => h (Or.inr hx)
    refine ⟨?_, ?_, ?_, ?_, ?_⟩ <;>
      simp [createLarkClient, createLarkWSClient, validateCredentials, h] <;>
      cases hl : lookupKV st.entries (cacheKey a) <;> simp [hl]

/-- Witness for C3 (amended): an empty app id leaves the cache state
untouched, and valid credentials construct a websocket client. -/
theorem c3_missing_credentials_witness :
    (createLarkClient emptyIdAccount emptyClientCache).2 = emptyClientCache ∧
    createLarkWSClient baseAccount = .ok ⟨"app", "sec", LarkDomain.lark⟩ :=
  ⟨(c3_missing_credentials_untrimmed emptyIdAccount emptyClientCache).2.2.1 (Or.inl rfl),
   (c3_missing_credentials_untrimmed baseAccount emptyClientCache).2.2.2.2
      (by decide) (by decide)⟩

/-- Counterexample for C4 as stated: the payload "null" parses as JSON
null, so the claim requires the text kind to return the empty string
(text field absent); the code instead raises a TypeError on the
property access and the catch returns the raw string "null". -/
theorem c4_null_payload_counterexample :
    parseJson "null" = some Json.null ∧
    extractText "null" "text" = Json.str "null" ∧
    ("null" : String) ≠ "" :=
  ⟨rfl, rfl, by decide⟩

/-- C4 (amended): extractText returns the raw content verbatim when
parsing fails, when the payload decodes to JSON null under the text or
post kinds (the property access on null raises a TypeError caught by
the same fallback), and when a post payload's one-level-flattened block
array contains a null block (the filter predicate's property access
raises likewise).  Otherwise: kind text returns the payload's text
field as-is (empty string when absent or null); kind post with a
content block array and no null block keeps exactly the blocks tagged
"text" and joins their text fields in order — a string field
contributes itself, an absent or null field the empty string, and any
other value its JavaScript string conversion; kind post without a block
array falls back to the title field (empty string when absent or null);
any other kind yields the bracketed placeholder naming the kind. -/
theorem c4_extractText_behavior (content kind : String) :
    (parseJson content = none → extractText content kind = .str content) ∧
    (parseJson content = some .null → kind = "text" ∨ kind = "post" →
      extractText content kind = .str content) ∧
    (∀ o, parseJson content = some o → o ≠ .null → kind = "text" →
      extractText content kind = jsCoalesce (fieldOf o "text") (.str "")) ∧
    (∀ o xs, parseJson content = some o → kind = "post" →
      fieldOf o "content" = some (.arr xs) →
      Json.null ∈ jsFlatOne xs →
      extractText content kind = .str content) ∧
    (∀ o xs, parseJson content = some o → kind = "post" →
      fieldOf o "content" = some (.arr xs) →
      ((jsFlatOne xs).all nonNullBlock) = true →
      extractText content kind =
        .str (jsJoinEmptySep (jsonFuel content)
          (((jsFlatOne xs).filter isTextTagged).map fun x => fieldOf x "text"))) ∧
    (∀ o xs, parseJson content = some o → kind = "post" →
      fieldOf o "content" = some (.arr xs) →
      ((jsFlatOne xs).all nonNullBlock) = true →
      (((jsFlatOne xs).filter isTextTagged).all textFieldJoinable) = true →
      extractText content kind =
        .str (String.join (((jsFlatOne xs).filter isTextTagged).map blockTextStr))) ∧
    (∀ o, parseJson content = some o → o ≠ .null → kind = "post" →
      (∀ xs, fieldOf o "content" ≠ some (.arr xs)) →
      extractText content kind = jsCoalesce (fieldOf o "title") (.str "")) ∧
    (∀ o, parseJson content = some o → kind ≠ "text" → kind ≠ "post" →
      extractText content kind = .str ("[" ++ kind ++ " message]")) := by
  have contentNotNull : ∀ o (xs : List Json), fieldOf o "content" = some (.arr xs) →
      o ≠ Json.null := by
    intro o xs hc he
    subst he
    simp [fieldOf] at hc
  have flatNonNull : ∀ xs : List Json, ((jsFlatOne xs).all nonNullBlock) = true →
      ∀ x ∈ jsFlatOne xs, x ≠ Json.null := by
    intro xs hnn x hx he
    subst he
    have := List.all_eq_true.mp hnn _ hx
    simp [nonNullBlock] at this
  refine ⟨?_, ?_, ?_, ?_, ?_, ?_, ?_, ?_⟩
  · intro hp
    simp [extractText, extractTextE, hp]
  · intro hp hk
    rcases hk with hk | hk <;> subst hk <;> simp [extractText, extractTextE, hp, jsGet]
  · intro o hp ho hk
    subst hk
    simp [extractText, extractTextE, hp, jsGet_eq_fieldOf ho]
  · intro o xs hp hk hc hmem
    subst hk
    simp [extractText, extractTextE, hp, jsGet_eq_fieldOf (contentNotNull o xs hc), hc,
      jsFilterTagText_null hmem]
  · intro o xs hp hk hc hnn
    subst hk
    have hnonull := flatNonNull xs hnn
    have hmapnull : ∀ x ∈ (jsFlatOne xs).filter isTextTagged, x ≠ .null :=
      fun x hx => hnonull x (List.mem_of_mem_filter hx)
    simp only [extractText, extractTextE, hp, jsGet_eq_fieldOf (contentNotNull o xs hc), hc]
    simp [jsFilterTagText_eq hnonull, jsMapTextField_eq hmapnull]
  · intro o xs hp hk hc hnn hjoin
    subst hk
    have hnonull := flatNonNull xs hnn
    have hmapnull : ∀ x ∈ (jsFlatOne xs).filter isTextTagged, x ≠ .null :=
      fun x hx => hnonull x (List.mem_of_mem_filter hx)
    have htext : ∀ x ∈ (jsFlatOne xs).filter isTextTagged, textFieldJoinable x = true :=
      fun x hx => List.all_eq_true.mp hjoin x hx
    simp only [extractText, extractTextE, hp, jsGet_eq_fieldOf (contentNotNull o xs hc), hc]
    simp [jsFilterTagText_eq hnonull, jsMapTextField_eq hmapnull,
      jsJoin_text_blocks (jsonFuel content) (jsonFuel_pos content) _ htext]
  · intro o hp ho hk hnc
    subst hk
    simp only [extractText, extractTextE, hp, jsGet_eq_fieldOf ho]
    rcases hc : fieldOf o "content" with _ | v
    · simp
    · cases v with
      | null => simp
      | bool b => simp
      | num l => simp
      | str s => simp
      | arr ys => exact absurd hc (hnc ys)
      | obj kvs => simp
  · intro o hp h1 h2
    simp [extractText, extractTextE, hp, h1, h2]

/-- Witness for C4: every branch of the characterization at a concrete
payload — the verbatim fallback on "not json", the null payload, the
text field "hello", the raw fallback on a null block inside a post
array, the JavaScript string conversion of a numeric text field, the
in-order concatenation "ab", the title fallback, and the placeholder
for an unsupported kind. -/
theorem c4_extractText_witness :
    extractText "not json" "text" = Json.str "not json" ∧
    extractText "null" "post" = Json.str "null" ∧
    extractText "\x7b\"text\": \"hello\"\x7d" "text" = Json.str "hello" ∧
    extractText nullBlockContent "post" = Json.str nullBlockContent ∧
    extractText postNumContent "post" = Json.str "5" ∧
    extractText postAbContent "post" = Json.str "ab" ∧
    extractText "\x7b\"title\": \"T\"\x7d" "post" = Json.str "T" ∧
    extractText "\x7b\x7d" "image" = Json.str "[image message]" := by
  refine ⟨(c4_extractText_behavior "not json" "text").1 rfl,
          (c4_extractText_behavior "null" "post").2.1 rfl (Or.inr rfl),
          ((c4_extractText_behavior "\x7b\"text\": \"hello\"\x7d" "text").2.2.1
            (Json.obj [("text", Json.str "hello")]) rfl
            (fun h => Json.noConfusion h) rfl).trans rfl,
          (c4_extractText_behavior nullBlockContent "post").2.2.2.1
            (Json.obj [("content", Json.arr [Json.arr [Json.null]])])
            [Json.arr [Json.null]] rfl rfl rfl
            (List.mem_singleton.mpr rfl),
          ((c4_extractText_behavior postNumContent "post").2.2.2.2.1
            (Json.obj [("content",
              Json.arr [Json.arr [Json.obj [("tag", Json.str "text"), ("text", Json.num "5")]]])])
            [Json.arr [Json.obj [("tag", Json.str "text"), ("text", Json.num "5")]]]
            rfl rfl rfl rfl).trans rfl,
          ((c4_extractText_behavior postAbContent "post").2.2.2.2.2.1
            (Json.obj [("content",
              Json.arr [Json.arr [Json.obj [("tag", Json.str "text"), ("text", Json.str "a")],
                                  Json.obj [("tag", Json.str "text"), ("text", Json.str "b")]]])])
            [Json.arr [Json.obj [("tag", Json.str "text"), ("text", Json.str "a")],
                       Json.obj [("tag", Json.str "text"), ("text", Json.str "b")]]]
            rfl rfl rfl rfl rfl).trans rfl,
          ((c4_extractText_behavior "\x7b\"title\": \"T\"\x7d" "post").2.2.2.2.2.2.1
            (Json.obj [("title", Json.str "T")]) rfl
            (fun h => Json.noConfusion h) rfl
            (fun xs h => Option.noConfusion h)).trans rfl,
          (c4_extractText_behavior "\x7b\x7d" "image").2.2.2.2.2.2.2
            (Json.obj []) rfl (by decide) (by decide)⟩

/-- Counterexample for C5 as stated: for the event whose text payload
decodes to the number 5, the extracted value is not a string, so
parseMessage raises a TypeError (calling trim on a number) rather than
returning null or a ParsedMessage. -/
theorem c5_nonstring_text_counterexample :
    extractText numTextEvent.message.content numTextEvent.message.message_type =
      Json.num "5" ∧
    parseMessage numTextEvent = .error .typeErr :=
  ⟨rfl, rfl⟩

/-- C5 (amended): whenever extractText yields a string value,
parseMessage returns null iff that string trims to empty, and otherwise
returns a ParsedMessage carrying it; whenever extractText yields a
non-string value (the code then calls trim on a non-string — this
happens when a text-kind payload's text field, or a block-free
post-kind payload's title field, decodes to a non-string, non-null JSON
value), parseMessage raises a TypeError instead of returning; and
whenever parseMessage returns null, routeMessage logs one debug line
and forwards nothing to the inbound handler, raising no error. -/
theorem c5_parse_null_iff_blank_and_route_drop (event : LarkMessageEvent)
    (account : ResolvedLarkAccount) (s : String) :
    (extractText event.message.content event.message.message_type = .str s →
      ((parseMessage event = .ok none ↔ jsTrim s = "") ∧
       (jsTrim s ≠ "" → ∃ pm, parseMessage event = .ok (some pm) ∧ pm.text = s))) ∧
    ((∀ t, extractText event.message.content event.message.message_type ≠ .str t) →
      parseMessage event = .error .typeErr) ∧
    (parseMessage event = .ok none →
      routeMessage event account = .ok ([⟨.debug, skipLogText⟩], none)) := by
  refine ⟨?_, ?_, ?_⟩
  · intro hx
    unfold parseMessage
    rw [hx]
    by_cases h : jsTrim s = ""
    · simp [h]
    · simp only [h, if_false, if_neg]
      constructor
      · simp
      · intro _
        exact ⟨_, rfl, rfl⟩
  · intro h
    unfold parseMessage
    cases hx : extractText event.message.content event.message.message_type with
    | null => rfl
    | bool b => rfl
    | num lexeme => rfl
    | str t => exact absurd hx (h t)
    | arr xs => rfl
    | obj kvs => rfl
  · intro hp
    unfold routeMessage
    rw [hp]

/-- Witness for C5: the whitespace-only payload is dropped and routed
as a debug log with no dispatch; the payload "hello" parses into a
message carrying that text; and both exceptional shapes — a numeric
text field and a numeric title on a block-free post payload — make
parseMessage raise. -/
theorem c5_parse_route_witness :
    parseMessage blankTextEvent = .ok none ∧
    routeMessage blankTextEvent baseAccount = .ok ([⟨.debug, skipLogText⟩], none) ∧
    (∃ pm, parseMessage helloTextEvent = .ok (some pm) ∧ pm.text = "hello") ∧
    parseMessage numTextEvent = .error .typeErr ∧
    parseMessage titleNumEvent = .error .typeErr := by
  have h1 := (c5_parse_null_iff_blank_and_route_drop blankTextEvent baseAccount "   ").1 rfl
  have hnull : parseMessage blankTextEvent = .ok none := h1.1.mpr rfl
  refine ⟨hnull,
    (c5_parse_null_iff_blank_and_route_drop blankTextEvent baseAccount "   ").2.2 hnull,
    ((c5_parse_null_iff_blank_and_route_drop helloTextEvent baseAccount "hello").1 rfl).2
      (by decide), ?_, ?_⟩
  · refine (c5_parse_null_iff_blank_and_route_drop numTextEvent baseAccount "").2.1 ?_
    intro t ht
    rw [show extractText numTextEvent.message.content numTextEvent.message.message_type =
      Json.num "5" from rfl] at ht
    exact Json.noConfusion ht
  · refine (c5_parse_null_iff_blank_and_route_drop titleNumEvent baseAccount "").2.1 ?_
    intro t ht
    rw [show extractText titleNumEvent.message.content titleNumEvent.message.message_type =
      Json.num "5" from rfl] at ht
    exact Json.noConfusion ht

/-- C6: sendTextMessage is total — every outcome, including thrown
errors, becomes a SendResult — and, when the credentials pass
validation so the provider is actually called, the result is success
iff the response carries status code zero and a payload, in which case
it carries the provider-assigned message id; every failure carries the
provider's message, the generic fallback, or the caught error's
description; and no result pairs ok with a populated error or not-ok
with a populated messageId. -/
theorem c6_sendTextMessage_contract (account : ResolvedLarkAccount)
    (recipientId text : String) (threadId : Option String)
    (provider : ProviderBehavior) (st : ClientCacheState) :
    ((sendTextMessage account recipientId text threadId provider st).1.ok = true →
      (sendTextMessage account recipientId text threadId provider st).1.error = none) ∧
    ((sendTextMessage account recipientId text threadId provider st).1.ok = false →
      (sendTextMessage account recipientId text threadId provider st).1.messageId = none) ∧
    ((sendTextMessage account recipientId text threadId provider st).1.ok = false →
      ((sendTextMessage account recipientId text threadId provider st).1.error).isSome = true) ∧
    (validateCredentials account = .ok () →
      ((sendTextMessage account recipientId text threadId provider st).1.ok = true ↔
        ∃ resp d, provider (buildSendRequest recipientId text threadId) = .ok resp ∧
          resp.code = 0 ∧ resp.data = some d)) ∧
    (∀ resp d, validateCredentials account = .ok () →
      provider (buildSendRequest recipientId text threadId) = .ok resp →
      resp.code = 0 → resp.data = some d →
      (sendTextMessage account recipientId text threadId provider st).1 =
        ⟨true, d.message_id, none⟩) ∧
    (∀ e, validateCredentials account = .error e →
      (sendTextMessage account recipientId text threadId provider st).1 =
        ⟨false, none, some e⟩) ∧
    (∀ e, validateCredentials account = .ok () →
      provider (buildSendRequest recipientId text threadId) = .error e →
      (sendTextMessage account recipientId text threadId provider st).1 =
        ⟨false, none, some e⟩) ∧
    (∀ resp, validateCredentials account = .ok () →
      provider (buildSendRequest recipientId text threadId) = .ok resp →
      (resp.code ≠ 0 ∨ resp.data = none) →
      (sendTextMessage account recipientId text threadId provider st).1 =
        ⟨false, none, some (resp.msg.getD "Unknown error")⟩) := by
  cases hv : validateCredentials account with
  | error e =>
    rw [sendTextMessage_error_creds account recipientId text threadId provider st e hv]
    refine ⟨?_, ?_, ?_, ?_, ?_, ?_, ?_, ?_⟩ <;> (intros; simp_all)
  | ok u =>
    cases u
    rw [sendTextMessage_ok_creds account recipientId text threadId provider st hv]
    cases hp : provider (buildSendRequest recipientId text threadId) with
    | error e =>
      refine ⟨?_, ?_, ?_, ?_, ?_, ?_, ?_, ?_⟩ <;> (intros; simp_all)
    | ok resp =>
      by_cases hc : resp.code = 0 <;> cases hd : resp.data <;>
        refine ⟨?_, ?_, ?_, ?_, ?_, ?_, ?_, ?_⟩ <;> (intros; simp_all)

/-- Witness for C6: a successful provider call yields the success
result with the assigned message id, and an account with an empty app
id yields the caught MissingCredentials failure. -/
theorem c6_sendTextMessage_witness :
    (sendTextMessage baseAccount "ou_1" "hi" none providerOk emptyClientCache).1.error =
      none ∧
    (sendTextMessage baseAccount "ou_1" "hi" none providerOk emptyClientCache).1 =
      ⟨true, some "om_42", none⟩ ∧
    (sendTextMessage emptyIdAccount "ou_1" "hi" none providerOk emptyClientCache).1 =
      ⟨false, none, some missingCredentialsMsg⟩ := by
  refine ⟨(c6_sendTextMessage_contract baseAccount "ou_1" "hi" none providerOk
      emptyClientCache).1 rfl, ?_, ?_⟩
  · exact (c6_sendTextMessage_contract baseAccount "ou_1" "hi" none providerOk
      emptyClientCache).2.2.2.2.1
      { code := 0, msg := none, data := some { message_id := some "om_42" } }
      { message_id := some "om_42" } rfl rfl rfl rfl
  · exact (c6_sendTextMessage_contract emptyIdAccount "ou_1" "hi" none providerOk
      emptyClientCache).2.2.2.2.2.1 missingCredentialsMsg rfl

/-- C7: the client cache algebra — two consecutive creations for
accounts with identical (appId, appSecret, domain) return the same
instance; changing exactly one of the three components yields a
distinct instance; and a creation after clearClientCache yields an
instance distinct from everything previously cached, in particular from
the first one. -/
theorem c7_client_cache_algebra (st : ClientCacheState)
    (a1 a2 a3 : ResolvedLarkAccount) (c1 c2 c3 : Nat)
    (st1 st2 st3 : ClientCacheState)
    (hwf : CacheWF st)
    (h1 : createLarkClient a1 st = (.ok c1, st1))
    (h2 : createLarkClient a2 st1 = (.ok c2, st2))
    (h3 : createLarkClient a3 (clearClientCache st1) = (.ok c3, st3)) :
    (a1.appId = a2.appId → a1.appSecret = a2.appSecret → a1.domain = a2.domain →
      c2 = c1) ∧
    ((a1.appId ≠ a2.appId ∧ a1.appSecret = a2.appSecret ∧ a1.domain = a2.domain) ∨
     (a1.appId = a2.appId ∧ a1.appSecret ≠ a2.appSecret ∧ a1.domain = a2.domain) ∨
     (a1.appId = a2.appId ∧ a1.appSecret = a2.appSecret ∧ a1.domain ≠ a2.domain) →
     c1 ≠ c2) ∧
    (∀ p ∈ st1.entries, c3 ≠ p.2) ∧
    c3 ≠ c1 := by
  have hwf1 : CacheWF st1 := by
    have := createLarkClient_wf a1 st hwf
    rw [h1] at this
    exact this
  have hl1 : lookupKV st1.entries (cacheKey a1) = some c1 := createLarkClient_lookup h1
  have hb1 : c1 < st1.nextId := createLarkClient_bound hwf h1
  have hv2 : validateCredentials a2 = .ok () := createLarkClient_ok_validate h2
  have hv3 : validateCredentials a3 = .ok () := createLarkClient_ok_validate h3
  have hc3 : c3 = st1.nextId := by
    have hm : createLarkClient a3 (clearClientCache st1) =
        (.ok st1.nextId, ⟨[(cacheKey a3, st1.nextId)], st1.nextId + 1⟩) := by
      have := createLarkClient_miss a3 (clearClientCache st1) hv3 (by rfl)
      simpa [clearClientCache] using this
    rw [hm] at h3
    have := congrArg Prod.fst h3
    simpa using this.symm
  refine ⟨?_, ?_, ?_, ?_⟩
  · intro e1 e2 e3
    have hkey : cacheKey a2 = cacheKey a1 := (cacheKey_congr e1 e2 e3).symm
    have := createLarkClient_hit hv2 (hkey ▸ hl1)
    rw [this] at h2
    have := congrArg Prod.fst h2
    simpa using this.symm
  · intro hdiff
    have hkne : cacheKey a1 ≠ cacheKey a2 := cacheKey_ne hdiff
    cases hl2 : lookupKV st1.entries (cacheKey a2) with
    | some v =>
      have := createLarkClient_hit hv2 hl2
      rw [this] at h2
      have hc2 : c2 = v := by
        have := congrArg Prod.fst h2
        simpa using this.symm
      subst hc2
      exact lookupKV_values_ne hwf1.2 hkne hl1 hl2
    | none =>
      have := createLarkClient_miss _ _ hv2 hl2
      rw [this] at h2
      have hc2 : c2 = st1.nextId := by
        have := congrArg Prod.fst h2
        simpa using this.symm
      subst hc2
      exact Nat.ne_of_lt hb1
  · intro p hp
    rw [hc3]
    intro he
    exact absurd (he ▸ hwf1.1 p hp) (Nat.lt_irrefl _)
  · rw [hc3]
    intro he
    exact absurd (he ▸ hb1) (Nat.lt_irrefl _)

/-- Witness for C7: starting from the empty cache, creating a client
for baseAccount and then for the account differing only in app id
yields instances 0 and 1, which are distinct; and the client created
after a clear is distinct from the first. -/
theorem c7_client_cache_witness :
    createLarkClient baseAccount emptyClientCache =
      (.ok 0, ⟨[("app:sec:lark", 0)], 1⟩) ∧
    (0 : Nat) ≠ 1 ∧ (1 : Nat) ≠ 0 := by
  have hwf : CacheWF emptyClientCache :=
    ⟨by simp [emptyClientCache], by simp [emptyClientCache]⟩
  refine ⟨rfl, ?_, ?_⟩
  · exact (c7_client_cache_algebra emptyClientCache baseAccount otherAppIdAccount
      otherAppIdAccount 0 1 1 ⟨[("app:sec:lark", 0)], 1⟩
      ⟨[("app:sec:lark", 0), ("app2:sec:lark", 1)], 2⟩
      ⟨[("app2:sec:lark", 1)], 2⟩ hwf rfl rfl rfl).2.1
      (Or.inl ⟨by decide, rfl, rfl⟩)
  · exact (c7_client_cache_algebra emptyClientCache baseAccount otherAppIdAccount
      otherAppIdAccount 0 1 1 ⟨[("app:sec:lark", 0)], 1⟩
      ⟨[("app:sec:lark", 0), ("app2:sec:lark", 1)], 2⟩
      ⟨[("app2:sec:lark", 1)], 2⟩ hwf rfl rfl rfl).2.2.2

/-- C8: stopMonitor leaves both connection slots clear; it issues the
webhook server's stop call exactly when one was active and never issues
a close call on the websocket handle; and stopping when idle is a no-op
producing no state change and no vendor calls. -/
theorem c8_stopMonitor_contract (st : MonitorState) :
    ((stopMonitor st).1.activeWsClient = none ∧
     (stopMonitor st).1.activeWebhookServer = none) ∧
    (∀ h, st.activeWebhookServer = some h →
      (stopMonitor st).2 = [.webhookStopCalled h]) ∧
    (st.activeWebhookServer = none → (stopMonitor st).2 = []) ∧
    (∀ h, MonitorEffect.wsCloseCalled h ∉ (stopMonitor st).2) ∧
    (st = ⟨none, none⟩ → stopMonitor st = (st, [])) := by
  obtain ⟨ws, wh⟩ := st
  cases ws <;> cases wh <;> simp [stopMonitor]

/-- Witness for C8: stopping with an active webhook server issues
exactly its stop call, and stopping when idle changes nothing. -/
theorem c8_stopMonitor_witness :
    (stopMonitor ⟨some 7, some 3⟩).2 = [MonitorEffect.webhookStopCalled 3] ∧
    (stopMonitor ⟨none, some 9⟩).2 = [MonitorEffect.webhookStopCalled 9] ∧
    stopMonitor ⟨none, none⟩ = (⟨none, none⟩, []) :=
  ⟨(c8_stopMonitor_contract ⟨some 7, some 3⟩).2.1 3 rfl,
   (c8_stopMonitor_contract ⟨none, some 9⟩).2.1 9 rfl,
   (c8_stopMonitor_contract ⟨none, none⟩).2.2.2.2 rfl⟩

/-- C9: listAccountIds returns exactly the keys of the stored accounts
mapping, with "default" appended iff it is not already among those keys
and both environment credential variables are set (to a non-empty
value, which is what the code's truthiness check observes). -/
theorem c9_listAccountIds_spec (cfg : MoltbotConfig) (env : Env) :
    (("default" ∈ storedAccountKeys cfg ∨ ¬envCredentialsSet env) →
      listAccountIds cfg env = storedAccountKeys cfg) ∧
    ("default" ∉ storedAccountKeys cfg → envCredentialsSet env →
      listAccountIds cfg env = storedAccountKeys cfg ++ ["default"]) := by
  have henv : hasEnvCredentials env = true ↔ envCredentialsSet env := by
    unfold hasEnvCredentials envCredentialsSet truthyEnv
    cases env.larkAppId <;> cases env.larkAppSecret <;> simp
  have hlist : listAccountIds cfg env =
      (if !(storedAccountKeys cfg).contains "default" && hasEnvCredentials env
       then storedAccountKeys cfg ++ ["default"] else storedAccountKeys cfg) := rfl
  constructor
  · intro h
    rcases h with h | h
    · have hc : (storedAccountKeys cfg).contains "default" = true :=
        List.elem_eq_true_of_mem h
      have hcond :
          (!(storedAccountKeys cfg).contains "default" && hasEnvCredentials env) = false := by
        rw [hc]
        simp
      rw [hlist, hcond]
      simp
    · have hc : hasEnvCredentials env = false := by
        cases hh : hasEnvCredentials env
        · rfl
        · exact absurd (henv.mp hh) h
      have hcond :
          (!(storedAccountKeys cfg).contains "default" && hasEnvCredentials env) = false := by
        rw [hc, Bool.and_false]
      rw [hlist, hcond]
      simp
  · intro h1 h2
    have hc : (storedAccountKeys cfg).contains "default" = false := by
      cases hh : (storedAccountKeys cfg).contains "default"
      · rfl
      · exact absurd (List.mem_of_elem_eq_true hh) h1
    have hcond :
        (!(storedAccountKeys cfg).contains "default" && hasEnvCredentials env) = true := by
      rw [hc, henv.mpr h2]
      rfl
    rw [hlist, hcond]
    simp

/-- Witness for C9: a configuration storing one account named acct
lists acct plus default when the environment credentials are set, and
only acct when they are absent. -/
theorem c9_listAccountIds_witness :
    listAccountIds acctOnlyCfg scenarioEnv = ["acct", "default"] ∧
    listAccountIds acctOnlyCfg {} = ["acct"] := by
  constructor
  · exact ((c9_listAccountIds_spec acctOnlyCfg scenarioEnv).2 (by decide)
      ⟨⟨"cli_x", rfl, by decide⟩, ⟨"secret_y", rfl, by decide⟩⟩).trans rfl
  · exact ((c9_listAccountIds_spec acctOnlyCfg {}).1
      (Or.inr fun h => by
        rcases h with ⟨⟨s, hs, -⟩, -⟩
        exact Option.noConfusion hs)).trans rfl

/-- C10: all five DM/group policy lookups read only the stored
configuration of the "default" account, falling back to the hard-coded
defaults and empty lists; two configurations with the same default
account entry give identical answers under any environments, so neither
the environment nor any non-default account influences them. -/
theorem c10_policy_reads_default_account_only (cfg cfg' : MoltbotConfig)
    (env env' : Env) :
    (defaultAccountConfig cfg = none →
      dmPolicyMode cfg env = DEFAULTS.dmPolicy ∧
      dmPolicyAllowlist cfg env = [] ∧
      groupPolicyMode cfg env = DEFAULTS.groupPolicy ∧
      groupPolicyMentionGated cfg env = DEFAULTS.groupMentionGated ∧
      groupPolicyAllowlist cfg env = []) ∧
    (∀ a, defaultAccountConfig cfg = some a →
      dmPolicyMode cfg env = a.dmPolicy.getD DEFAULTS.dmPolicy ∧
      dmPolicyAllowlist cfg env = a.dmAllowlist.getD [] ∧
      groupPolicyMode cfg env = a.groupPolicy.getD DEFAULTS.groupPolicy ∧
      groupPolicyMentionGated cfg env = a.groupMentionGated.getD DEFAULTS.groupMentionGated ∧
      groupPolicyAllowlist cfg env = a.groupAllowlist.getD []) ∧
    (defaultAccountConfig cfg = defaultAccountConfig cfg' →
      dmPolicyMode cfg env = dmPolicyMode cfg' env' ∧
      dmPolicyAllowlist cfg env = dmPolicyAllowlist cfg' env' ∧
      groupPolicyMode cfg env = groupPolicyMode cfg' env' ∧
      groupPolicyMentionGated cfg env = groupPolicyMentionGated cfg' env' ∧
      groupPolicyAllowlist cfg env = groupPolicyAllowlist cfg' env') := by
  refine ⟨?_, ?_, ?_⟩
  · intro h
    simp [dmPolicyMode, dmPolicyAllowlist, groupPolicyMode, groupPolicyMentionGated,
      groupPolicyAllowlist, h]
  · intro a h
    simp [dmPolicyMode, dmPolicyAllowlist, groupPolicyMode, groupPolicyMentionGated,
      groupPolicyAllowlist, h]
  · intro h
    simp [dmPolicyMode, dmPolicyAllowlist, groupPolicyMode, groupPolicyMentionGated,
      groupPolicyAllowlist, h]

/-- Witness for C10: the stored default account's policies are
returned; configurations differing only in a non-default account agree
under different environments; and a configuration with no default
account entry yields the empty group allowlist. -/
theorem c10_policy_witness :
    dmPolicyMode policyCfg {} = DmPolicy.open' ∧
    dmPolicyMode policyCfg {} = dmPolicyMode policyCfgVariant scenarioEnv ∧
    groupPolicyAllowlist acctOnlyCfg {} = [] := by
  refine ⟨?_, ?_, ?_⟩
  · exact ((c10_policy_reads_default_account_only policyCfg policyCfg {} {}).2.1
      _ rfl).1.trans rfl
  · exact ((c10_policy_reads_default_account_only policyCfg policyCfgVariant {}
      scenarioEnv).2.2 rfl).1
  · exact ((c10_policy_reads_default_account_only acctOnlyCfg acctOnlyCfg {} {}).1
      rfl).2.2.2.2
